import Mathlib

/- Verification of the KADI Slack agent's core components, modelled from the
   repository's TypeScript sources:
   - the per-user rate limiter (checkRateLimit / checkToolCallThrottle in
     src/utils/rateLimit.ts),
   - the channel-list CSV parsing of fetchChannelsFromMCP,
   - the decision-execution flow of handleSlackInput (message handler),
   - the broker invocation gateway (ability.invoke) as an event step machine.
   JavaScript timestamps (Date.now()) are modelled as integers; the per-user
   Map entry of the calling user is passed and returned explicitly. -/

/-- Per-user rate-limit record (interface UserRateLimit in src/types). -/
structure UserRateLimit where
  lastToolCallTime : Int
  messageCount : Nat
  messageWindowStart : Int
deriving DecidableEq, Repr

/-- Result of a rate-limit check (interface RateLimitResult in src/types);
`reason` is `none` when the source returns an object without a reason. -/
structure RateLimitResult where
  allowed : Bool
  reason : Option String
deriving DecidableEq, Repr

/-- TOOL_CALL_COOLDOWN_MS in rateLimit.ts: 2 seconds between tool calls. -/
def TOOL_CALL_COOLDOWN_MS : Int := 2000

/-- MAX_MESSAGES_PER_MINUTE in rateLimit.ts. -/
def MAX_MESSAGES_PER_MINUTE : Nat := 20

/-- MESSAGE_WINDOW_MS in rateLimit.ts: 1 minute window. -/
def MESSAGE_WINDOW_MS : Int := 60000

/-- Math.ceil(x / 1000) on an integer input x, as used in the throttle
denial reason. For every integer x and positive divisor d, the real
ceiling of x / d equals (x + d - 1) divided by d with Euclidean division. -/
def mathCeilDiv1000 (x : Int) : Int := (x + 999) / 1000

/-- checkRateLimit (rateLimit.ts lines 9-39) acting on the calling user's map
entry (`none` when no record exists). Returns the check result together with
the record held in the map afterwards. On the denied branch the source has
already executed `limit.messageCount++` on the object stored in the map, so
the returned record carries the incremented count even though the explicit
`set` call is skipped there. -/
def checkRateLimit (now : Int) (entry : Option UserRateLimit) :
    RateLimitResult × UserRateLimit :=
  match entry with
  | none => (⟨true, none⟩, ⟨0, 1, now⟩)
  | some limit =>
    if now - limit.messageWindowStart > MESSAGE_WINDOW_MS then
      (⟨true, none⟩, { limit with messageCount := 1, messageWindowStart := now })
    else
      let limit2 := { limit with messageCount := limit.messageCount + 1 }
      if limit2.messageCount > MAX_MESSAGES_PER_MINUTE then
        (⟨false, some "Rate limit exceeded: max 20 messages per minute"⟩, limit2)
      else
        (⟨true, none⟩, limit2)

/-- checkToolCallThrottle (rateLimit.ts lines 41-62) on the user's map entry. -/
def checkToolCallThrottle (now : Int) (entry : Option UserRateLimit) :
    RateLimitResult × UserRateLimit :=
  match entry with
  | none => (⟨true, none⟩, ⟨now, 0, now⟩)
  | some limit =>
    let timeSinceLastTool := now - limit.lastToolCallTime
    if timeSinceLastTool < TOOL_CALL_COOLDOWN_MS then
      let wait := mathCeilDiv1000 (TOOL_CALL_COOLDOWN_MS - timeSinceLastTool)
      (⟨false, some ("Tool calls are throttled: wait " ++ toString wait ++ " seconds")⟩,
       limit)
    else
      (⟨true, none⟩, { limit with lastToolCallTime := now })

/-- The user's map entry after n consecutive checkRateLimit calls, all at
time t, starting from no record. -/
def stateAfterMessages (t : Int) : Nat → Option UserRateLimit
  | 0 => none
  | n + 1 => some (checkRateLimit t (stateAfterMessages t n)).2

/-- After n+1 same-instant messages from a fresh user the stored record has
count n+1: the increment happens on denied checks as well. -/
theorem stateAfterMessages_eq (t : Int) :
    ∀ n : Nat, stateAfterMessages t (n + 1) = some ⟨0, n + 1, t⟩ := by
  intro n
  induction n with
  | zero => rfl
  | succ k ih =>
    show some (checkRateLimit t (stateAfterMessages t (k + 1))).2 = _
    rw [ih]
    simp only [checkRateLimit, MESSAGE_WINDOW_MS, MAX_MESSAGES_PER_MINUTE]
    norm_num
    split <;> rfl

example : (checkRateLimit 1000 none).1.allowed = true := by decide
example : (checkRateLimit 5000 (some ⟨0, 20, 4000⟩)).1.allowed = false := by decide
example : (checkRateLimit 70000 (some ⟨0, 20, 4000⟩)).1.allowed = true := by decide
example : (checkToolCallThrottle 5000 (some ⟨4500, 3, 0⟩)).1.reason =
    some "Tool calls are throttled: wait 2 seconds" := by decide

/-- C4: checkRateLimit is the sliding fixed window of the spec. With no
record it creates one with count 1 and allows; past the 60000 ms window it
resets count to 1 and windowStart to now and allows; otherwise it increments
the count and denies with the reason string exactly when the incremented
count exceeds 20. Consequently the (n+1)th same-window message of a user is
allowed iff n+1 is at most 20, and the first message after the window has
elapsed is allowed again. -/
theorem checkRateLimit_sliding_window :
    (∀ now : Int, checkRateLimit now none = (⟨true, none⟩, ⟨0, 1, now⟩))
    ∧ (∀ (now : Int) (l : UserRateLimit),
        now - l.messageWindowStart > MESSAGE_WINDOW_MS →
        checkRateLimit now (some l) =
          (⟨true, none⟩, { l with messageCount := 1, messageWindowStart := now }))
    ∧ (∀ (now : Int) (l : UserRateLimit),
        now - l.messageWindowStart ≤ MESSAGE_WINDOW_MS →
        checkRateLimit now (some l) =
          ((if l.messageCount + 1 > MAX_MESSAGES_PER_MINUTE then
              ⟨false, some "Rate limit exceeded: max 20 messages per minute"⟩
            else ⟨true, none⟩),
           { l with messageCount := l.messageCount + 1 }))
    ∧ (∀ (t : Int) (n : Nat),
        ((checkRateLimit t (stateAfterMessages t n)).1.allowed = true ↔
          n + 1 ≤ MAX_MESSAGES_PER_MINUTE))
    ∧ (∀ (t t2 : Int) (n : Nat), t2 - t > MESSAGE_WINDOW_MS →
        (checkRateLimit t2 (stateAfterMessages t n)).1.allowed = true) := by
  refine ⟨fun now => rfl, fun now l h => ?_, fun now l h => ?_, fun t n => ?_, fun t t2 n h => ?_⟩
  · simp only [checkRateLimit, if_pos h]
  · simp only [checkRateLimit, if_neg (not_lt.mpr (le_of_not_lt (not_lt.mpr h)))]
    split <;> rfl
  · cases n with
    | zero => simp [stateAfterMessages, checkRateLimit, MAX_MESSAGES_PER_MINUTE]
    | succ k =>
      rw [stateAfterMessages_eq]
      simp only [checkRateLimit, MESSAGE_WINDOW_MS, MAX_MESSAGES_PER_MINUTE]
      rw [if_neg (by omega)]
      split
      · rename_i hc
        simp only [Bool.false_eq_true, false_iff]
        omega
      · rename_i hc
        simp only [true_iff]
        omega
  · cases n with
    | zero => simp [stateAfterMessages, checkRateLimit]
    | succ k =>
      rw [stateAfterMessages_eq]
      simp only [checkRateLimit]
      rw [if_pos (by simpa using h)]

/-- C5: the tool-call cooldown gate. A first observation (no record) stores
lastToolCallTime = now and allows. With an existing record, a check less
than 2000 ms after lastToolCallTime is denied with the remaining wait
rounded up to whole seconds — a positive number — and the record is
unchanged; a check at or after the cooldown is allowed and stores
lastToolCallTime = now. -/
theorem checkToolCallThrottle_cooldown :
    (∀ now : Int, checkToolCallThrottle now none = (⟨true, none⟩, ⟨now, 0, now⟩))
    ∧ (∀ (now : Int) (l : UserRateLimit),
        0 ≤ now - l.lastToolCallTime →
        now - l.lastToolCallTime < TOOL_CALL_COOLDOWN_MS →
        checkToolCallThrottle now (some l) =
          (⟨false, some ("Tool calls are throttled: wait " ++
             toString (mathCeilDiv1000 (TOOL_CALL_COOLDOWN_MS - (now - l.lastToolCallTime)))
             ++ " seconds")⟩, l)
        ∧ 0 < mathCeilDiv1000 (TOOL_CALL_COOLDOWN_MS - (now - l.lastToolCallTime)))
    ∧ (∀ (now : Int) (l : UserRateLimit),
        TOOL_CALL_COOLDOWN_MS ≤ now - l.lastToolCallTime →
        checkToolCallThrottle now (some l) =
          (⟨true, none⟩, { l with lastToolCallTime := now })) := by
  refine ⟨fun now => rfl, fun now l h0 h1 => ⟨?_, ?_⟩, fun now l h => ?_⟩
  · simp only [checkToolCallThrottle, if_pos h1]
  · simp only [mathCeilDiv1000, TOOL_CALL_COOLDOWN_MS] at h1 ⊢
    omega
  · simp only [checkToolCallThrottle, if_neg (not_lt.mpr h)]

/-- C6: each check leaves the other check's state fields alone. On an
existing record, checkRateLimit never changes lastToolCallTime (a freshly
created record gets the sentinel 0), and checkToolCallThrottle never changes
messageCount or messageWindowStart; moreover a denied throttle check leaves
the whole record unchanged, so lastToolCallTime is updated only by an
allowed tool-call check. -/
theorem rateLimit_checks_frame_independent :
    (∀ (now : Int) (l : UserRateLimit),
        ((checkRateLimit now (some l)).2).lastToolCallTime = l.lastToolCallTime)
    ∧ (∀ now : Int, ((checkRateLimit now none).2).lastToolCallTime = 0)
    ∧ (∀ (now : Int) (l : UserRateLimit),
        ((checkToolCallThrottle now (some l)).2).messageCount = l.messageCount
        ∧ ((checkToolCallThrottle now (some l)).2).messageWindowStart
            = l.messageWindowStart)
    ∧ (∀ (now : Int) (l : UserRateLimit),
        (checkToolCallThrottle now (some l)).1.allowed = false →
        (checkToolCallThrottle now (some l)).2 = l) := by
  refine ⟨fun now l => ?_, fun now => rfl, fun now l => ?_, fun now l h => ?_⟩
  · simp only [checkRateLimit]
    split
    · rfl
    · split <;> rfl
  · simp only [checkToolCallThrottle]
    split <;> exact ⟨rfl, rfl⟩
  · simp only [checkToolCallThrottle] at h ⊢
    split at h
    · rename_i hc
      rw [if_pos hc]
    · simp at h

/-- JavaScript string model for the CSV parsing layer: a string is its list
of characters. The channel payload is ASCII text, for which this matches the
UTF-16 code-unit view the source operates on. -/
abbrev JStr := List Char

/-- A parsed channel record: each header column name mapped, in header
order, to the row's field at the same position (`none` when the ragged row
has no such field, the source's `undefined`). -/
abbrev ChannelRecord := List (JStr × Option JStr)

/-- Whitespace as stripped by String.prototype.trim on the characters that
occur in the channel payload. -/
def jsWhitespace (c : Char) : Bool := c.isWhitespace

/-- String.prototype.trim: drop whitespace from both ends. -/
def jsTrim (s : JStr) : JStr :=
  ((s.dropWhile jsWhitespace).reverse.dropWhile jsWhitespace).reverse

/-- Accumulator worker for String.prototype.split with a one-character
separator: `acc` holds the current field reversed. -/
def jsSplitAux (sep : Char) : JStr → JStr → List JStr
  | [], acc => [acc.reverse]
  | c :: cs, acc =>
    if c = sep then acc.reverse :: jsSplitAux sep cs []
    else jsSplitAux sep cs (c :: acc)

/-- String.prototype.split with a one-character separator, as used on "\n"
and "," in fetchChannelsFromMCP. -/
def jsSplit (sep : Char) (s : JStr) : List JStr := jsSplitAux sep s []

/-- One data row of the CSV (fetchChannelsFromMCP lines 294-299): split the
line on commas, trim each field, and assign `obj[h] = cols[i]` for each
header h at index i (an out-of-range index reads `undefined`). -/
def rowRecord (headers : List JStr) (line : JStr) : ChannelRecord :=
  let cols := (jsSplit ',' line).map jsTrim
  headers.enum.map (fun p => (p.2, cols[p.1]?))

/-- The channel-list parsing of fetchChannelsFromMCP (lines 278-304) on the
already-trimmed raw text blob. A blob that neither starts with "ID," nor
contains a line break is not CSV: the cached list is returned unchanged.
Otherwise the blob is split on newlines, lines are trimmed and empty lines
dropped, the first remaining line gives the column names and every further
line becomes a record. When no line remains, reading `lines[0].split`
throws on `undefined` and the surrounding try/catch returns the cached list
unchanged. -/
def parseChannels (raw : JStr) (cachedChannels : List ChannelRecord) :
    List ChannelRecord :=
  if List.isPrefixOf ("ID,".toList) raw || raw.contains '\n' then
    match ((jsSplit '\n' raw).map jsTrim).filter (fun l => !l.isEmpty) with
    | [] => cachedChannels
    | headerLine :: rows =>
      rows.map (rowRecord ((jsSplit ',' headerLine).map jsTrim))
  else cachedChannels

example : jsSplit ',' ("a,b".toList) = ["a".toList, "b".toList] := by decide
example : jsSplit ',' [] = [[]] := by decide
example : jsTrim ("  x ".toList) = "x".toList := by decide

/-- Splitting a list without the separator gives the single field made of
the accumulator so far and the rest. -/
theorem jsSplitAux_not_mem (sep : Char) :
    ∀ (l acc : JStr), sep ∉ l → jsSplitAux sep l acc = [acc.reverse ++ l] := by
  intro l
  induction l with
  | nil => intro acc _; simp [jsSplitAux]
  | cons c cs ih =>
    intro acc h
    have hc : ¬ c = sep := fun he => h (he ▸ List.mem_cons_self c cs)
    have hcs : sep ∉ cs := fun hm => h (List.mem_cons_of_mem c hm)
    simp only [jsSplitAux, if_neg hc, ih (c :: acc) hcs]
    simp

/-- A separator-free string is a single field. -/
theorem jsSplit_not_mem (sep : Char) (l : JStr) (h : sep ∉ l) :
    jsSplit sep l = [l] := by
  simpa using jsSplitAux_not_mem sep l [] h

/-- C7: the channel-list parsing contract. The example blob
"ID,Name\nC1,general\nC2,random" yields exactly the records
ID=C1/Name=general and ID=C2/Name=random in that order; an empty blob or a
single non-tabular line (no internal line break, not matching the "ID,"
header signature) leaves the cached list unchanged; and every data row is
split on commas, trimmed per field and zipped positionally against the
header columns, a ragged row leaving the trailing columns undefined
instead of erroring. -/
theorem parseChannels_tabular_contract :
    (∀ old : List ChannelRecord,
        parseChannels ("ID,Name\nC1,general\nC2,random".toList) old =
          [[("ID".toList, some ("C1".toList)),
            ("Name".toList, some ("general".toList))],
           [("ID".toList, some ("C2".toList)),
            ("Name".toList, some ("random".toList))]])
    ∧ (∀ old : List ChannelRecord, parseChannels [] old = old)
    ∧ (∀ (raw : JStr) (old : List ChannelRecord),
        List.isPrefixOf ("ID,".toList) raw = false → raw.contains '\n' = false →
        parseChannels raw old = old)
    ∧ (∀ (headers : List JStr) (line : JStr) (i : Nat) (h : i < headers.length),
        (rowRecord headers line)[i]? =
          some (headers[i], ((jsSplit ',' line).map jsTrim)[i]?))
    ∧ (∀ (headers : List JStr) (line : JStr) (i : Nat) (h : i < headers.length),
        ((jsSplit ',' line).map jsTrim).length ≤ i →
        (rowRecord headers line)[i]? = some (headers[i], none)) := by
  have hrow : ∀ (headers : List JStr) (line : JStr) (i : Nat)
      (h : i < headers.length),
      (rowRecord headers line)[i]? =
        some (headers[i], ((jsSplit ',' line).map jsTrim)[i]?) := by
    intro headers line i h
    simp [rowRecord, List.getElem?_map, List.getElem?_enum,
      List.getElem?_eq_getElem h]
  refine ⟨fun old => rfl, fun old => rfl, fun raw old h1 h2 => ?_, hrow,
    fun headers line i h hlen => ?_⟩
  · unfold parseChannels
    rw [h1, h2]
    simp
  · rw [hrow headers line i h, List.getElem?_eq_none hlen]

/-- C10: a blob that is already trimmed, begins with the "ID," header
signature and has no internal line break is classified as tabular with a
header row and no data rows, so the refresh replaces the cached channel
list with the empty list instead of leaving it unchanged. -/
theorem parseChannels_header_only_empty (raw : JStr) (old : List ChannelRecord)
    (htrim : jsTrim raw = raw)
    (hpre : List.isPrefixOf ("ID,".toList) raw = true)
    (hnl : '\n' ∉ raw) :
    parseChannels raw old = [] := by
  have hne : raw ≠ [] := by
    intro he
    rw [he] at hpre
    simp [List.isPrefixOf] at hpre
  have hlines : (((jsSplit '\n' raw).map jsTrim).filter (fun l => !l.isEmpty))
      = [raw] := by
    rw [jsSplit_not_mem '\n' raw hnl]
    simp [htrim, hne]
  simp only [parseChannels, hpre, Bool.true_or, if_true, hlines]
  simp

/-- Concrete instance of C10: a header-only blob "ID,Name" empties a
previously nonempty cache. -/
theorem parseChannels_header_only_empty_witness :
    parseChannels ("ID,Name".toList) [[("ID".toList, some ("C0".toList))]] = [] :=
  parseChannels_header_only_empty ("ID,Name".toList)
    [[("ID".toList, some ("C0".toList))]] (by decide) (by decide) (by decide)

/-- Tool definition as cached for the decision flow; the input schema of the
source is used only for prompt text and is not consulted by the execution
path, so only the identity-bearing fields are carried. -/
structure ToolDefinition where
  name : String
  description : Option String
deriving DecidableEq, Repr

/-- The key/value tool input of a decision, with the two fields the executor
inspects (channel_id injection and content_type rewriting) explicit and the
remaining properties carried opaquely. -/
structure ToolInput where
  channel_id : Option String
  content_type : Option String
  extra : List (String × String)
deriving DecidableEq, Repr

/-- The object `{}` used when the decision carries no input. -/
def emptyToolInput : ToolInput := ⟨none, none, []⟩

/-- The decision object parsed from the model's JSON (interface LLMResponse):
optional answer, tool and input fields. -/
structure LLMResponse where
  answer : Option String
  tool : Option String
  input : Option ToolInput
deriving DecidableEq, Repr

/-- JavaScript truthiness of an optional string field: undefined (none) and
the empty string are falsy. -/
def jsTruthy : Option String → Bool
  | none => false
  | some s => s != ""

/-- The reply the executor sends for each exit of handleSlackInput, keeping
the dynamic data of each message. For summarized and toolResult the carried
payload is the raw tool result; the JSON pretty-printing and the external
summarization text are abstracted. -/
inductive ExecReply
  | parseFailure
  | answer (text : String)
  | notSure
  | notAvailable (tool : String)
  | throttled (reason : String)
  | abilityUnavailable
  | toolExecuted (tool : String)
  | summarized (payload : String)
  | toolResult (payload : String)
  | toolFailed (err : String)
deriving DecidableEq, Repr

/-- The literal text handed to `say` for the replies whose full wording the
source fixes (the summarization and pretty-printed result branches splice in
external or reformatted payloads and keep their payload verbatim here). -/
def renderReply : ExecReply → String
  | .parseFailure => "I couldn't parse the assistant's response."
  | .answer t => t
  | .notSure => "I'm not sure which tool to call."
  | .notAvailable t => "Tool \"" ++ t ++ "\" not available."
  | .throttled r => "Throttle: " ++ r
  | .abilityUnavailable => "Slack ability not loaded; cannot call tools right now."
  | .toolExecuted t => "Tool \"" ++ t ++ "\" executed."
  | .summarized p => p
  | .toolResult p => "Tool Result:\n```json\n" ++ p ++ "\n```"
  | .toolFailed e => "Tool call failed: " ++ e

/-- Everything observable about one handleSlackInput run: the reply sent,
the gateway invocations performed (tool name and final input), whether
checkToolCallThrottle ran, and the user's rate-limit map entry afterwards. -/
structure ExecOutcome where
  reply : ExecReply
  invoked : List (String × ToolInput)
  throttleChecked : Bool
  limit : Option UserRateLimit
deriving DecidableEq, Repr

/-- The decision-execution flow of handleSlackInput (messageHandler source,
after the LLM call), as a pure function. `parsed` is none when JSON.parse of
the model output threw; `wantSummarize` models the "summarize" substring
test on the user text; `abilityLoaded` whether getSlackAbility() returned an
ability; `invokeRes` is the oracle for the gateway call (error message, or a
result where none stands for a falsy rawResult); `now`/`entry` feed the
throttle check on the calling user's map entry. -/
def handleSlackInputModel (wantSummarize : Bool) (parsed : Option LLMResponse)
    (channelId : String) (slackTools : List ToolDefinition)
    (abilityLoaded : Bool) (invokeRes : Except String (Option String))
    (now : Int) (entry : Option UserRateLimit) : ExecOutcome :=
  match parsed with
  | none => ⟨.parseFailure, [], false, entry⟩
  | some p =>
    if jsTruthy p.answer then ⟨.answer (p.answer.getD ""), [], false, entry⟩
    else
      let toolInput := p.input.getD emptyToolInput
      if !(jsTruthy p.tool) then ⟨.notSure, [], false, entry⟩
      else
        let tn := p.tool.getD ""
        let toolInput2 :=
          if !(jsTruthy toolInput.channel_id) && channelId != "" then
            { toolInput with channel_id := some channelId }
          else toolInput
        match slackTools.find? (fun t => t.name == tn) with
        | none => ⟨.notAvailable tn, [], false, entry⟩
        | some _ =>
          let check := checkToolCallThrottle now entry
          if !check.1.allowed then
            ⟨.throttled (check.1.reason.getD ""), [], true, some check.2⟩
          else
            let toolInput3 :=
              if toolInput2.content_type == some "text" then
                { toolInput2 with content_type := some "text/plain" }
              else toolInput2
            if !abilityLoaded then ⟨.abilityUnavailable, [], true, some check.2⟩
            else
              match invokeRes with
              | .error e => ⟨.toolFailed e, [(tn, toolInput3)], true, some check.2⟩
              | .ok none => ⟨.toolExecuted tn, [(tn, toolInput3)], true, some check.2⟩
              | .ok (some raw) =>
                if wantSummarize then
                  ⟨.summarized raw, [(tn, toolInput3)], true, some check.2⟩
                else
                  ⟨.toolResult raw, [(tn, toolInput3)], true, some check.2⟩

example :
    (handleSlackInputModel false (some ⟨none, some "slack_channels_list", none⟩)
      "C9" [⟨"slack_channels_list", none⟩] true (.ok (some "ID,Name")) 99999
      none).reply = .toolResult "ID,Name" := by decide
example :
    (handleSlackInputModel false (some ⟨none, some "slack_channels_list", none⟩)
      "C9" [⟨"slack_channels_list", none⟩] true (.ok (some "x")) 500
      (some ⟨0, 1, 0⟩)).reply =
      .throttled "Tool calls are throttled: wait 2 seconds" := by decide

/-- C8: a decision carrying a tool name that is not in the cached tool list
is answered with the user-visible "not available" reply; no gateway
invocation is performed and the cooldown check never runs, so the user's
rate-limit entry — in particular lastToolCallTime — is unchanged. -/
theorem handleSlackInput_unknown_tool_no_invoke
    (ws : Bool) (p : LLMResponse) (channelId : String)
    (slackTools : List ToolDefinition) (ab : Bool)
    (res : Except String (Option String)) (now : Int)
    (entry : Option UserRateLimit) (t : String)
    (hans : jsTruthy p.answer = false)
    (htool : p.tool = some t) (ht : t ≠ "")
    (hfind : slackTools.find? (fun d => d.name == t) = none) :
    handleSlackInputModel ws (some p) channelId slackTools ab res now entry =
      ⟨.notAvailable t, [], false, entry⟩
    ∧ renderReply (.notAvailable t) = "Tool \"" ++ t ++ "\" not available." := by
  refine ⟨?_, rfl⟩
  have htt : jsTruthy (some t) = true := by simp [jsTruthy, ht]
  simp [handleSlackInputModel, hans, htool, htt, hfind]

/-- Concrete instance of C8: a decision naming a tool outside the cache is
turned away before any invocation or throttle state change. -/
theorem handleSlackInput_unknown_tool_no_invoke_witness :
    handleSlackInputModel false (some ⟨none, some "slack_users_list", none⟩)
        "C1" [⟨"slack_channels_list", none⟩] true (.ok none) 0 none =
      ⟨.notAvailable "slack_users_list", [], false, none⟩
    ∧ renderReply (.notAvailable "slack_users_list") =
        "Tool \"slack_users_list\" not available." :=
  handleSlackInput_unknown_tool_no_invoke false
    ⟨none, some "slack_users_list", none⟩ "C1" [⟨"slack_channels_list", none⟩]
    true (.ok none) 0 none "slack_users_list" rfl rfl (by decide) rfl

/-- C9: a decision carrying only an answer is replied verbatim: no gateway
invocation, no throttle check, and the user's rate-limit entry untouched
beyond the message-rate check already performed upstream. -/
theorem handleSlackInput_answer_verbatim
    (ws : Bool) (a channelId : String) (slackTools : List ToolDefinition)
    (ab : Bool) (res : Except String (Option String)) (now : Int)
    (entry : Option UserRateLimit) (ha : a ≠ "") :
    handleSlackInputModel ws (some ⟨some a, none, none⟩) channelId slackTools
        ab res now entry = ⟨.answer a, [], false, entry⟩
    ∧ renderReply (.answer a) = a := by
  refine ⟨?_, rfl⟩
  simp [handleSlackInputModel, jsTruthy, ha]

/-- Concrete instance of C9, the spec's end-to-end example: the decision
with answer "hi" replies "hi" with no invocation and no limiter change. -/
theorem handleSlackInput_answer_verbatim_witness :
    handleSlackInputModel false (some ⟨some "hi", none, none⟩) "C1" [] true
        (.ok none) 0 none = ⟨.answer "hi", [], false, none⟩
    ∧ renderReply (.answer "hi") = "hi" :=
  handleSlackInput_answer_verbatim false "hi" "C1" [] true (.ok none) 0 none
    (by decide)

/-- Settlement of the promise returned by ability.invoke: resolve with a
payload (the notification's params.result or the inline response, either of
which may be absent/undefined) or reject with an error message. -/
inductive SettleValue
  | resolved (v : Option String)
  | rejected (msg : String)
deriving DecidableEq, Repr

/-- The rejection message of the deadline timer for a given tool name. -/
def timeoutMsg (toolName : String) : String :=
  "Tool invocation timeout for " ++ toolName

/-- Promise settlement is first-wins: a second resolve or reject call on an
already settled promise is ignored. -/
def promiseSettle (s : Option SettleValue) (v : SettleValue) :
    Option SettleValue :=
  match s with
  | some w => some w
  | none => some v

/-- The response of protocol.invokeTool as inspected by the then-callback:
an object carrying a requestId means the call is pending; anything else is
an inline result. -/
inductive SubmitResponse
  | pending (requestId : String)
  | inline (value : Option String)
deriving DecidableEq, Repr

/-- One scheduled continuation of a live ability.invoke call: a message on
the shared connection stream (method, params.requestId, params.result — the
latter two undefined when absent), the settlement of the invokeTool promise
(then or catch), or the expiry of the deadline timer. -/
inductive GEvent
  | message (method : String) (requestId : Option String) (result : Option String)
  | submitOk (response : SubmitResponse)
  | submitErr (err : String)
  | timerFire
deriving DecidableEq, Repr

/-- The per-call state of ability.invoke after its executor ran: the
remembered currentRequestId (none while still undefined), whether
handleMessage is still attached to the connection, whether the deadline
timer is still armed, and the promise's settlement. -/
structure GatewayState where
  toolName : String
  remembered : Option String
  listenerActive : Bool
  timerActive : Bool
  settled : Option SettleValue
deriving DecidableEq, Repr

/-- One continuation of ability.invoke (rateLimit.ts lines 164-214). A
message runs handleMessage only while the listener is attached, and resolves
only when the method is "kadi.ability.response" and the carried requestId
equals currentRequestId under JavaScript === (undefined compares equal only
to undefined); resolution clears the timer and detaches the listener. A
pending acknowledgment only stores currentRequestId. An inline response and
a submission error clear the timer, detach the listener and settle. The
timer, when still armed, detaches the listener and rejects with the timeout
message. Every settlement goes through first-wins promise semantics. -/
def step (s : GatewayState) (e : GEvent) : GatewayState :=
  match e with
  | .message method reqId result =>
    if s.listenerActive && method == "kadi.ability.response"
        && reqId == s.remembered then
      { s with timerActive := false, listenerActive := false,
               settled := promiseSettle s.settled (.resolved result) }
    else s
  | .submitOk (.pending id) => { s with remembered := some id }
  | .submitOk (.inline v) =>
    { s with timerActive := false, listenerActive := false,
             settled := promiseSettle s.settled (.resolved v) }
  | .submitErr err =>
    { s with timerActive := false, listenerActive := false,
             settled := promiseSettle s.settled (.rejected err) }
  | .timerFire =>
    if s.timerActive then
      { s with timerActive := false, listenerActive := false,
               settled := promiseSettle s.settled (.rejected (timeoutMsg s.toolName)) }
    else s

/-- The call state after a sequence of continuations. -/
def run (s : GatewayState) (events : List GEvent) : GatewayState :=
  events.foldl step s

/-- The entry of ability.invoke: with no broker connection it throws
"No broker connection available" before any listener, timer or pending
state exists; with a live connection the executor arms the timer, attaches
handleMessage and calls invokeTool, leaving currentRequestId undefined and
the promise pending. -/
def invoke (connectionLive : Bool) (toolName : String) :
    Except String GatewayState :=
  if connectionLive then .ok ⟨toolName, none, true, true, none⟩
  else .error "No broker connection available"

/-- A settled call stays settled with the same value through any further
continuation: promise settlement is first-wins on every path. -/
theorem step_settled_persists (s : GatewayState) (e : GEvent) (v : SettleValue)
    (h : s.settled = some v) : (step s e).settled = some v := by
  cases e with
  | message m r p =>
    simp only [step]
    split
    · simp [promiseSettle, h]
    · exact h
  | submitOk r =>
    cases r with
    | pending id => exact h
    | inline w => simp [step, promiseSettle, h]
  | submitErr err => simp [step, promiseSettle, h]
  | timerFire =>
    simp only [step]
    split
    · simp [promiseSettle, h]
    · exact h

example :
    (run ⟨"t", none, true, true, none⟩
      [.submitOk (.pending "r1"),
       .message "kadi.ability.response" (some "r2") (some "x"),
       .message "kadi.ability.response" (some "r1") (some "y")]).settled =
    some (.resolved (some "y")) := by decide
example :
    (run ⟨"t", none, true, true, none⟩
      [.timerFire, .message "kadi.ability.response" none (some "x")]).settled =
    some (.rejected "Tool invocation timeout for t") := by decide

/-- C1: with a live connection, invoke's promise settles exactly once: once
settled, no further continuation — notification, inline result, submission
error or timer — changes the settlement; an inline result settles an
unsettled call, and a pending acknowledgment followed by the notification
carrying the same correlation id resolves it with that notification's
payload; and a notification whose correlation id differs from the id
remembered for the call (including the initial undefined id before the
acknowledgment arrives) leaves the call's state completely unchanged. -/
theorem gateway_invoke_settles_once_and_mismatch_ignored :
    (∀ t : String, invoke true t = .ok ⟨t, none, true, true, none⟩)
    ∧ (∀ (s : GatewayState) (tr : List GEvent) (v : SettleValue),
        s.settled = some v → (run s tr).settled = some v)
    ∧ (∀ (s : GatewayState) (v : Option String), s.settled = none →
        (step s (.submitOk (.inline v))).settled = some (.resolved v))
    ∧ (∀ (s : GatewayState) (id : String) (res : Option String),
        s.settled = none → s.listenerActive = true →
        (run s [.submitOk (.pending id),
                .message "kadi.ability.response" (some id) res]).settled =
          some (.resolved res))
    ∧ (∀ (s : GatewayState) (m : String) (rid : Option String)
        (res : Option String),
        rid ≠ s.remembered → step s (.message m rid res) = s) := by
  refine ⟨fun t => rfl, fun s tr => ?_, fun s v h => ?_, fun s id res h1 h2 => ?_,
    fun s m rid res h => ?_⟩
  · induction tr generalizing s with
    | nil => intro v h; exact h
    | cons e es ih =>
      intro v h
      exact ih (step s e) v (step_settled_persists s e v h)
  · simp [step, promiseSettle, h]
  · simp [run, step, h1, h2, promiseSettle]
  · have hb : (rid == s.remembered) = false := by
      simp [beq_eq_false_iff_ne, h]
    simp [step, hb]

/-- C2: when the deadline timer fires on a call that is still unsettled, the
call rejects with the Timeout message for its tool and the message listener
is detached; with the listener detached, a later notification — in
particular one carrying the call's own correlation id — leaves the state
unchanged; and the timer firing against an already resolved call leaves
that resolution in place (first-wins settlement). -/
theorem gateway_timeout_rejects_and_late_notification_ignored :
    (∀ s : GatewayState, s.settled = none → s.timerActive = true →
        step s .timerFire =
          { s with timerActive := false, listenerActive := false,
                   settled := some (.rejected (timeoutMsg s.toolName)) })
    ∧ (∀ (s : GatewayState) (m : String) (rid : Option String)
        (res : Option String), s.listenerActive = false →
        step s (.message m rid res) = s)
    ∧ (∀ (s : GatewayState) (v : Option String),
        s.settled = some (.resolved v) →
        (step s .timerFire).settled = some (.resolved v)) := by
  refine ⟨fun s h1 h2 => ?_, fun s m rid res h => ?_, fun s v h => ?_⟩
  · simp [step, h1, h2, promiseSettle]
  · simp [step, h]
  · exact step_settled_persists s .timerFire (.resolved v) h

/-- C3: a call made with no live broker connection fails immediately with
the "No broker connection available" error: the error branch of invoke is
taken before any GatewayState exists, so no listener is attached, no timer
armed and no pending-invocation state created. -/
theorem gateway_invoke_without_connection_fails :
    ∀ t : String, invoke false t = .error "No broker connection available" :=
  fun _ => rfl
